import Mathlib

/-!
Verification development for the Lunotech assistant chat service
(`src/main.py`). The definitions below are a shallow embedding of the
pure decision logic of the service: the contact validator
(`is_real_contact`), the classification post-processing
(`analyze_situation`), the per-turn alert decision and session update
performed by `chat_endpoint`, and the history truncation. The opaque
text-generation collaborator (`call_ai`) is modelled by an oracle
parameter describing its outcome, and the outbound Telegram call is
modelled by the boolean alert decision and title it would receive.
-/

/-- A conversation message, as stored in `session["history"]`
(`{"role": ..., "content": ...}`). The assistant content may be
`none` because `call_ai` can return `None` when no client is
configured. -/
structure Msg where
  role : String
  content : Option String
deriving DecidableEq

/-- The per-session visitor profile (`session["profile"]` in
`chat_endpoint`): fields `name`, `contact`, `project_type`, each
initially `None`. -/
structure Profile where
  name : Option String
  contact : Option String
  project_type : Option String
deriving DecidableEq

/-- A session as created lazily by `chat_endpoint` for an unknown
session id: empty history, empty profile, both alert latches false. -/
structure Session where
  history : List Msg
  profile : Profile
  alert_sent : Bool
  high_priority_alert_sent : Bool
deriving DecidableEq

/-- The fresh session value `chat_endpoint` inserts into `SESSIONS`. -/
def freshSession : Session :=
  { history := [], profile := ⟨none, none, none⟩,
    alert_sent := false, high_priority_alert_sent := false }

/-- Python truthiness for an optional string (`if x:`): `None` and the
empty string are falsy, every other string is truthy. -/
def pyTruthy : Option String → Bool
  | none => false
  | some s => if s = "" then false else true

/-- `re.sub(r"\D", "", s)`: keep only the decimal digit characters of
`s`. -/
def stripNonDigits (s : String) : String :=
  String.mk (s.data.filter Char.isDigit)

/-- Whether the character list `needle` occurs contiguously at the head
of `hay` (helper for the Python substring test `needle in hay`). -/
def matchesAt : List Char → List Char → Bool
  | [], _ => true
  | _ :: _, [] => false
  | n :: ns, h :: hs => n == h && matchesAt ns hs

/-- Whether the character list `needle` occurs contiguously anywhere in
`hay` (helper for the Python substring test `needle in hay`). -/
def containsSub (hay needle : List Char) : Bool :=
  match hay with
  | [] => needle.isEmpty
  | _ :: t => matchesAt needle hay || containsSub t needle

/-- The Python substring test `needle in hay` on strings. -/
def strIn (needle hay : String) : Bool :=
  containsSub hay.data needle.data

/-- The Python membership test `c in s` for a single character. -/
def strHasChar (s : String) (c : Char) : Bool :=
  s.data.any (fun a => a == c)

/-- Python `s.lower()`, modelled characterwise (`Char.toLower`; the
service's token list is ASCII and Persian, and Persian letters are
caseless, so the characterwise ASCII mapping is faithful here). -/
def lowerString (s : String) : String :=
  String.mk (s.data.map Char.toLower)

/-- Python `s in l` for a list of string literals. -/
def strElem (s : String) (l : List String) : Bool :=
  l.any (fun w => decide (s = w))

/-- `is_real_contact` (src/main.py lines 75-81): false on falsy input;
true when the string has both `@` and `.`; otherwise true exactly when
at least 7 digits remain after stripping non-digits. -/
def is_real_contact : Option String → Bool
  | none => false
  | some s =>
    if s = "" then false
    else if strHasChar s '@' && strHasChar s '.' then true
    else if 7 ≤ (stripNonDigits s).length then true
    else false

/-- The parsed JSON object produced by the classifier collaborator:
keys `stage`, `name`, `contact`, `project_type`, each possibly absent
(`data.get` returning `None`). -/
structure ClassifierData where
  stage : Option String
  name : Option String
  contact : Option String
  project_type : Option String
deriving DecidableEq

/-- Outcome of the structured `call_ai` invocation made by
`analyze_situation` (src/main.py lines 63-73 and 142): `noClient` when
the client is uninitialised (`call_ai` returns `None`); `callFailure`
when the API call raised and `call_ai` returned the string `"{}"`,
which parses to an empty object; `output p` for a returned string,
where `p = none` models non-parseable output (`json.loads` raises) and
`p = some d` models output parsed to the object `d`. -/
inductive AIResult where
  | noClient
  | callFailure
  | output (parsed : Option ClassifierData)
deriving DecidableEq

/-- The appears-in-the-raw-message condition as the source implements
it (src/main.py lines 154-156): when the extracted value keeps more
than 5 digits, its stripped-digit form must occur as a substring of the
stripped-digit form of the raw message; otherwise the extracted value
must occur verbatim in the raw message. -/
def contactAppearsIn (ec raw : String) : Bool :=
  if 5 < (stripNonDigits ec).length then
    strIn (stripNonDigits ec) (stripNonDigits raw)
  else strIn ec raw

/-- The body of `analyze_situation` after a successful `json.loads`
(src/main.py lines 147-163): fold truthy `name`/`project_type` into the
profile; then, if the extracted contact passes `is_real_contact` and
appears in the raw message (stripped-digit substring test when the
extracted digits number more than 5, verbatim substring test
otherwise), store it in the profile and report confirmation. Returns
(profile, stage, contact_found_now). -/
def analyzeWithData (profile : Profile) (user_message : String)
    (d : ClassifierData) : Profile × String × Bool :=
  let p1 := if pyTruthy d.name then { profile with name := d.name } else profile
  let p2 := if pyTruthy d.project_type then { p1 with project_type := d.project_type } else p1
  let stage := d.stage.getD "GREETING"
  if is_real_contact d.contact then
    if contactAppearsIn (d.contact.getD "") user_message then
      ({ p2 with contact := d.contact }, stage, true)
    else (p2, stage, false)
  else (p2, stage, false)

/-- `analyze_situation` (src/main.py lines 115-167) as a function of
the collaborator outcome: a `None` response or a parse failure falls
into the guard/except path returning `('GREETING', False)` with the
profile untouched; a call failure yields the `"{}"` response, which
parses to the empty object. -/
def analyze_situation (profile : Profile) (user_message : String) :
    AIResult → Profile × String × Bool
  | .noClient => (profile, "GREETING", false)
  | .callFailure => analyzeWithData profile user_message ⟨none, none, none, none⟩
  | .output none => (profile, "GREETING", false)
  | .output (some d) => analyzeWithData profile user_message d

/-- The contact value extracted by the classifier on this turn, when
any. -/
def extractedContact : AIResult → Option String
  | .output (some d) => d.contact
  | _ => none

/-- `ALLOWED_ALERT_STAGES` (src/main.py line 256). -/
def ALLOWED_ALERT_STAGES : List String := ["SALES_READY", "URGENT"]

/-- The stages of the final suppression rule (src/main.py line 267). -/
def SUPPRESS_STAGES : List String := ["GREETING", "DISCOVERY", "CONSULTING"]

/-- `agreement_words` (src/main.py line 257). -/
def agreement_words : List String :=
  ["bale", "yes", "ok", "please", "بله", "باشه", "حتما", "تماس", "call"]

/-- `is_agreement` (src/main.py line 258): some agreement word occurs
in the lowercased raw message. -/
def isAgreement (user_msg : String) : Bool :=
  agreement_words.any (fun w => strIn w (lowerString user_msg))

/-- `HISTORY_LIMIT` (src/main.py line 20). -/
def HISTORY_LIMIT : Nat := 30

/-- Python `l[-n:]`: the last `n` elements of `l` (all of `l` when it
is shorter), in order. -/
def lastN (n : Nat) (l : List α) : List α :=
  (l.reverse.take n).reverse

/-- The cookie seeding step of `chat_endpoint` (src/main.py lines
245-248): when the caller supplied a truthy stored contact, the profile
contact is still falsy, and the stored value passes the validator, copy
it into the profile. -/
def seedContact (p : Profile) (stored : Option String) : Profile :=
  if pyTruthy stored && !(pyTruthy p.contact) then
    if is_real_contact stored then { p with contact := stored } else p
  else p

/-- One turn's request data as consumed by `chat_endpoint`, together
with the oracle outcomes of the two opaque collaborator calls:
`ai` for the classification call and `reply` for the generated
response (`call_ai` may return `None`). -/
structure TurnInput where
  message : String
  stored_contact : Option String
  ai : AIResult
  reply : Option String
deriving DecidableEq

/-- The if/elif alert rules of `chat_endpoint` (src/main.py lines
260-265), as a function of the latch, the classified stage, the
confirmation flag, the agreement flag and the validity of the stored
contact. Returns the pending alert decision together with the updated
`high_priority_alert_sent` latch. -/
def alertPair (hp : Bool) (stage : String) (conf agr hc : Bool) : Bool × Bool :=
  if conf then (true, hp)
  else if (strElem stage ALLOWED_ALERT_STAGES || agr) && hc then
    (if !hp then (true, true) else (false, hp))
  else (false, hp)

/-- The final suppression rule of `chat_endpoint` (src/main.py lines
267-268): for early stages with no confirmation and no agreement
phrase, force the alert decision to false. -/
def applySuppression (stage : String) (conf agr sa : Bool) : Bool :=
  if strElem stage SUPPRESS_STAGES && !conf && !agr then false else sa

/-- The classification a turn performs: cookie seeding followed by
`analyze_situation` (src/main.py lines 245-250). -/
def turnAnalysis (s : Session) (i : TurnInput) : Profile × String × Bool :=
  analyze_situation (seedContact s.profile i.stored_contact) i.message i.ai

/-- Everything observable about one execution of the `chat_endpoint`
try-body on a session: the updated session, whether the Telegram alert
fired and with which title, whether the high-priority (rule-2) branch
fired, and the classification outputs. -/
structure StepResult where
  session : Session
  should_alert : Bool
  alert_title : Option String
  rule2Fired : Bool
  contact_found_now : Bool
  stage : String
deriving DecidableEq

/-- The successful path of `chat_endpoint` on one message
(src/main.py lines 245-283): seed the contact from the cookie, run
`analyze_situation`, evaluate the alert decision table exactly in
source order (confirmed-contact rule, latched high-priority rule, final
suppression rule), compute the alert title, and append user and
assistant messages to the history truncated to `HISTORY_LIMIT`. -/
def chatStep (s : Session) (i : TurnInput) : StepResult :=
  let ar := turnAnalysis s i
  let p1 := ar.1
  let stage := ar.2.1
  let contact_found_now := ar.2.2
  let has_contact := is_real_contact p1.contact
  let is_agr := isAgreement i.message
  let sahp := alertPair s.high_priority_alert_sent stage contact_found_now is_agr has_contact
  let should_alert := applySuppression stage contact_found_now is_agr sahp.1
  let t0 := if is_agr then "HOT LEAD - SALES READY" else "HOT LEAD - " ++ stage
  let t1 := if contact_found_now then "HOT LEAD - NEW CONTACT" else t0
  let hist := lastN HISTORY_LIMIT
    (s.history ++ [⟨"user", some i.message⟩, ⟨"assistant", i.reply⟩])
  { session :=
      { history := hist, profile := p1,
        alert_sent := s.alert_sent || should_alert,
        high_priority_alert_sent := sahp.2 },
    should_alert := should_alert,
    alert_title := if should_alert then some t1 else none,
    rule2Fired := !contact_found_now && sahp.1,
    contact_found_now := contact_found_now,
    stage := stage }

/-- The JSON body and status returned by `chat_endpoint`. The
`save_contact` field is doubly optional: the outer `Option` records
whether the key is present in the JSON object at all (the except-path
response omits it), the inner one whether its value is `null`. -/
structure ChatResponse where
  text : Option String
  quick_replies : List String
  save_contact : Option (Option String)
  status : Nat
deriving DecidableEq

/-- The except-path response of `chat_endpoint` (src/main.py line 293):
`jsonify({"text": "System Error.", "quick_replies": []}), 200` — no
`save_contact` key. -/
def errorChatResponse : ChatResponse :=
  { text := some "System Error.", quick_replies := [],
    save_contact := none, status := 200 }

/-- `chat_endpoint` (src/main.py lines 227-293) on one session, with a
fault oracle: `fault = true` models an exception escaping the try-body
(malformed request, internal error), which returns the generic error
response with HTTP 200; otherwise the successful path runs and returns
the reply text and the current profile contact. -/
def chat_endpoint (fault : Bool) (s : Session) (i : TurnInput) :
    Session × ChatResponse :=
  if fault then (s, errorChatResponse)
  else
    let r := chatStep s i
    (r.session,
     { text := i.reply, quick_replies := [],
       save_contact := some r.session.profile.contact, status := 200 })

/-- Iterate `chatStep` over a sequence of turns, returning the final
session. -/
def runChat (s : Session) : List TurnInput → Session
  | [] => s
  | i :: rest => runChat (chatStep s i).session rest

/-- Iterate `chatStep` over a sequence of turns, returning each turn's
`StepResult` in order. -/
def runLog (s : Session) : List TurnInput → List StepResult
  | [] => []
  | i :: rest => chatStep s i :: runLog (chatStep s i).session rest

/-- Number of turns of a run on which the high-priority (rule-2) alert
branch fired. -/
def countRule2 (s : Session) (l : List TurnInput) : Nat :=
  (runLog s l).countP (fun r => r.rule2Fired)

/-- The two user/assistant messages a turn appends to the history. -/
def turnMsgs (i : TurnInput) : List Msg :=
  [⟨"user", some i.message⟩, ⟨"assistant", i.reply⟩]

/-- Concatenation of every turn's appended messages, in arrival
order. -/
def allTurnMsgs : List TurnInput → List Msg
  | [] => []
  | i :: rest => turnMsgs i ++ allTurnMsgs rest

/-- The appears-in-the-raw-message condition exactly as the spec claim
words it: when the extracted value keeps more than 5 digits, its
stripped-digit form must EQUAL the stripped-digit form of the raw
message; otherwise verbatim substring presence. Stated for comparison
with `contactAppearsIn`. -/
def claimedContactAppears (ec raw : String) : Bool :=
  if 5 < (stripNonDigits ec).length then
    decide (stripNonDigits ec = stripNonDigits raw)
  else strIn ec raw

/-- The response shape the spec's send-message contract requires of
every reply: a string `text`, empty `quick_replies`, a `save_contact`
key present (string or null), success status. Stated for comparison
with the responses `chat_endpoint` produces. -/
def claimedResponseShape (r : ChatResponse) : Bool :=
  r.text.isSome && r.quick_replies.isEmpty && r.save_contact.isSome &&
    decide (r.status = 200)

/-- A classifier outcome that reports stage `SALES_READY` and extracts
nothing (used for concrete scenarios). -/
def salesReadyAI : AIResult :=
  .output (some ⟨some "SALES_READY", none, none, none⟩)

/-- A session that already holds a validator-passing contact and has
not alerted yet (used for concrete scenarios). -/
def sessionWithContact : Session :=
  { history := [], profile := ⟨none, some "1234567", none⟩,
    alert_sent := false, high_priority_alert_sent := false }


/-! ### Helper lemmas -/

lemma validator_truthy {c : Option String} (h : is_real_contact c = true) :
    pyTruthy c = true := by
  match c with
  | none => simp [is_real_contact] at h
  | some s =>
    by_cases hs : s = ""
    · subst hs; simp [is_real_contact] at h
    · simp [pyTruthy, hs]

lemma seed_of_truthy (p : Profile) (st : Option String)
    (h : pyTruthy p.contact = true) : seedContact p st = p := by
  unfold seedContact
  simp [h]

lemma seed_cases (p : Profile) (st : Option String) :
    seedContact p st = p ∨
      (pyTruthy p.contact = false ∧ seedContact p st = { p with contact := st } ∧
        is_real_contact st = true) := by
  unfold seedContact
  by_cases h1 : pyTruthy st && !pyTruthy p.contact
  · by_cases h2 : is_real_contact st
    · right
      refine ⟨?_, ?_, h2⟩
      · simpa using (Bool.and_elim_right h1)
      · simp [h1, h2]
    · left; simp [h1, h2]
  · left; simp [h1]

lemma seed_contact_truthy (p : Profile) (st : Option String)
    (h : pyTruthy p.contact = true) :
    pyTruthy (seedContact p st).contact = true := by
  rw [seed_of_truthy p st h]; exact h

lemma analyzeWithData_contact_cases (p : Profile) (msg : String)
    (d : ClassifierData) :
    ((analyzeWithData p msg d).2.2 = true ∧
      (analyzeWithData p msg d).1.contact = d.contact ∧
      is_real_contact d.contact = true) ∨
    ((analyzeWithData p msg d).2.2 = false ∧
      (analyzeWithData p msg d).1.contact = p.contact) := by
  unfold analyzeWithData
  split_ifs <;> simp_all

lemma analyze_contact_cases (p : Profile) (msg : String) (ai : AIResult) :
    ((analyze_situation p msg ai).2.2 = true ∧
      (analyze_situation p msg ai).1.contact = extractedContact ai ∧
      is_real_contact (extractedContact ai) = true) ∨
    ((analyze_situation p msg ai).2.2 = false ∧
      (analyze_situation p msg ai).1.contact = p.contact) := by
  match ai with
  | .noClient => right; exact ⟨rfl, rfl⟩
  | .callFailure => right; exact ⟨rfl, rfl⟩
  | .output none => right; exact ⟨rfl, rfl⟩
  | .output (some d) => exact analyzeWithData_contact_cases p msg d

lemma allowed_not_suppressed {stage : String}
    (h : strElem stage ALLOWED_ALERT_STAGES = true) :
    strElem stage SUPPRESS_STAGES = false := by
  simp [strElem, ALLOWED_ALERT_STAGES, SUPPRESS_STAGES] at h ⊢
  rcases h with rfl | rfl <;> decide

lemma alertPair_snd (hp : Bool) (stage : String) (conf agr hc : Bool) :
    (alertPair hp stage conf agr hc).2 =
      (hp || (!conf && (alertPair hp stage conf agr hc).1)) := by
  unfold alertPair
  split_ifs <;> simp_all

lemma alertPair_fst_needs_unlatched {stage : String} {agr hc : Bool}
    (h : (alertPair true stage false agr hc).1 = true) : False := by
  unfold alertPair at h
  split_ifs at h <;> simp_all


/-! ### Claim theorems -/

/-- C9: `is_real_contact` is total and pure; it returns false on
missing or empty input; true when the string contains both `@` and
`.`; otherwise true exactly when at least 7 digits remain after
stripping non-digit characters; and it satisfies the three documented
examples. -/
theorem is_real_contact_contract :
    is_real_contact none = false ∧ is_real_contact (some "") = false ∧
    (∀ s : String, strHasChar s '@' = true → strHasChar s '.' = true →
      is_real_contact (some s) = true) ∧
    (∀ s : String, s ≠ "" → (strHasChar s '@' && strHasChar s '.') = false →
      (is_real_contact (some s) = true ↔ 7 ≤ (stripNonDigits s).length)) ∧
    is_real_contact (some "a@b.com") = true ∧
    is_real_contact (some "12345") = false ∧
    is_real_contact (some "123-4567") = true := by
  refine ⟨rfl, by decide, ?_, ?_, by decide, by decide, by decide⟩
  · intro s h1 h2
    have hne : s ≠ "" := by
      intro he; subst he; exact absurd h1 (by decide)
    simp [is_real_contact, hne, h1, h2]
  · intro s hne h
    constructor
    · intro hl
      by_contra hc
      have hf : is_real_contact (some s) = false := by
        simp [is_real_contact, hne, h, hc]
      rw [hf] at hl; cases hl
    · intro hc
      simp [is_real_contact, hne, h, hc]

/-- C9 witness: the contract applied at the concrete email example. -/
theorem is_real_contact_contract_witness :
    is_real_contact (some "a@b.com") = true :=
  is_real_contact_contract.2.2.1 "a@b.com" (by decide) (by decide)

/-- C7: when the classifier collaborator call fails (`None` from an
uninitialised client, or an exception turned into the `"{}"` fallback)
or returns non-parseable output, `analyze_situation` does not raise: it
returns stage `GREETING` with `contact_found_now = false` and leaves
the profile unchanged. -/
theorem classifier_failure_graceful (p : Profile) (msg : String)
    (ai : AIResult)
    (h : ai = .noClient ∨ ai = .callFailure ∨ ai = .output none) :
    analyze_situation p msg ai = (p, "GREETING", false) := by
  rcases h with rfl | rfl | rfl <;> rfl

/-- C7 witness: the graceful-failure theorem at a concrete profile and
the call-failure outcome. -/
theorem classifier_failure_graceful_witness :
    analyze_situation ⟨some "Ada", none, none⟩ "hello" .callFailure =
      (⟨some "Ada", none, none⟩, "GREETING", false) :=
  classifier_failure_graceful ⟨some "Ada", none, none⟩ "hello" .callFailure
    (Or.inr (Or.inl rfl))

/-- C1 counterexample: with extracted contact "555-1234" (7 digits) and
raw message "call me at 555-1234 and 5", the code confirms the contact
— the stripped digits "5551234" are a substring of the message's
stripped digits "55512345" — while the claim's stripped-digit EQUALITY
test is false, so the claimed biconditional fails on this input. -/
theorem contact_confirmation_counterexample :
    (analyze_situation ⟨none, none, none⟩ "call me at 555-1234 and 5"
        (.output (some ⟨some "SALES_READY", none, some "555-1234", none⟩))).2.2
      = true ∧
    is_real_contact (some "555-1234") = true ∧
    claimedContactAppears "555-1234" "call me at 555-1234 and 5" = false :=
  ⟨by decide, by decide, by decide⟩

/-- C1 (amended): `contact_found_now` is true exactly when the
extracted contact passes the validator and appears in the raw message,
where for a value keeping more than 5 digits the stripped-digit form of
the extracted value is a SUBSTRING of the stripped-digit form of the
message (not equal to it), and verbatim substring presence otherwise;
and the profile's contact is updated to the extracted value exactly
when confirmed. -/
theorem contact_confirmation_amended (p : Profile) (msg : String)
    (d : ClassifierData) :
    (analyze_situation p msg (.output (some d))).2.2 =
      (is_real_contact d.contact && contactAppearsIn (d.contact.getD "") msg) ∧
    (analyze_situation p msg (.output (some d))).1.contact =
      (if (analyze_situation p msg (.output (some d))).2.2 = true
       then d.contact else p.contact) := by
  have h1 : (analyze_situation p msg (.output (some d))).2.2 =
      (is_real_contact d.contact && contactAppearsIn (d.contact.getD "") msg) := by
    show (analyzeWithData p msg d).2.2 = _
    unfold analyzeWithData
    split_ifs <;> simp_all
  refine ⟨h1, ?_⟩
  rw [h1]
  show (analyzeWithData p msg d).1.contact = _
  unfold analyzeWithData
  split_ifs <;> simp_all

/-- C6 counterexample: a request hitting the internal-failure path
returns a body with no `save_contact` key at all, so the response does
not match the claimed schema `{text, quickReplies, saveContact}`. -/
theorem error_response_schema_counterexample :
    claimedResponseShape
      (chat_endpoint true freshSession ⟨"hello", none, .noClient, none⟩).2
      = false := by decide

/-- C6 (amended): every request returns status 200 with empty quick
replies; on internal failure the text is the generic "System Error."
and the `save_contact` key is absent; on the successful path the reply
text and the (possibly null) profile contact are returned. -/
theorem chat_endpoint_response_amended (fault : Bool) (s : Session)
    (i : TurnInput) :
    (chat_endpoint fault s i).2.status = 200 ∧
    (chat_endpoint fault s i).2.quick_replies = [] ∧
    (fault = true → (chat_endpoint fault s i).2.text = some "System Error." ∧
      (chat_endpoint fault s i).2.save_contact = none) ∧
    (fault = false → (chat_endpoint fault s i).2.text = i.reply ∧
      (chat_endpoint fault s i).2.save_contact =
        some (chatStep s i).session.profile.contact) := by
  cases fault <;> simp [chat_endpoint, errorChatResponse]

/-- C6 witness: the amended response contract applied on the
internal-failure path at a concrete request. -/
theorem chat_endpoint_response_amended_witness :
    (chat_endpoint true freshSession ⟨"hello", none, .noClient, none⟩).2.text =
      some "System Error." :=
  ((chat_endpoint_response_amended true freshSession
      ⟨"hello", none, .noClient, none⟩).2.2.1 rfl).1

/-! ### Projection lemmas for `chatStep` -/

lemma chatStep_conf (s : Session) (i : TurnInput) :
    (chatStep s i).contact_found_now = (turnAnalysis s i).2.2 := rfl

lemma chatStep_stage_eq (s : Session) (i : TurnInput) :
    (chatStep s i).stage = (turnAnalysis s i).2.1 := rfl

lemma chatStep_profile (s : Session) (i : TurnInput) :
    (chatStep s i).session.profile = (turnAnalysis s i).1 := rfl

lemma chatStep_hp (s : Session) (i : TurnInput) :
    (chatStep s i).session.high_priority_alert_sent =
      (alertPair s.high_priority_alert_sent (turnAnalysis s i).2.1
        (turnAnalysis s i).2.2 (isAgreement i.message)
        (is_real_contact (turnAnalysis s i).1.contact)).2 := rfl

lemma chatStep_sa (s : Session) (i : TurnInput) :
    (chatStep s i).should_alert =
      applySuppression (turnAnalysis s i).2.1 (turnAnalysis s i).2.2
        (isAgreement i.message)
        (alertPair s.high_priority_alert_sent (turnAnalysis s i).2.1
          (turnAnalysis s i).2.2 (isAgreement i.message)
          (is_real_contact (turnAnalysis s i).1.contact)).1 := rfl

lemma chatStep_rule2 (s : Session) (i : TurnInput) :
    (chatStep s i).rule2Fired =
      (!(turnAnalysis s i).2.2 &&
        (alertPair s.high_priority_alert_sent (turnAnalysis s i).2.1
          (turnAnalysis s i).2.2 (isAgreement i.message)
          (is_real_contact (turnAnalysis s i).1.contact)).1) := rfl

lemma chatStep_title (s : Session) (i : TurnInput) :
    (chatStep s i).alert_title =
      (if (chatStep s i).should_alert then
        some (if (turnAnalysis s i).2.2 then "HOT LEAD - NEW CONTACT"
              else if isAgreement i.message then "HOT LEAD - SALES READY"
              else "HOT LEAD - " ++ (turnAnalysis s i).2.1)
       else none) := rfl

lemma chatStep_history_eq (s : Session) (i : TurnInput) :
    (chatStep s i).session.history =
      lastN HISTORY_LIMIT (s.history ++ turnMsgs i) := rfl

/-! ### Alert-rule lemmas -/

lemma alertPair_false_latch_fired (st : String) (conf agr hc : Bool)
    (h : (alertPair false st conf agr hc).2 = true) :
    conf = false ∧ (strElem st ALLOWED_ALERT_STAGES || agr) = true ∧
    (alertPair false st conf agr hc).1 = true := by
  unfold alertPair at h ⊢
  cases conf
  · by_cases hcond : ((strElem st ALLOWED_ALERT_STAGES || agr) && hc) = true
    · refine ⟨rfl, ?_, by simp [hcond]⟩
      cases hor : (strElem st ALLOWED_ALERT_STAGES || agr)
      · rw [hor] at hcond; simp at hcond
      · rfl
    · simp [hcond] at h
  · simp at h

lemma suppression_keeps (st : String) (agr sa : Bool)
    (h : (strElem st ALLOWED_ALERT_STAGES || agr) = true) :
    applySuppression st false agr sa = sa := by
  unfold applySuppression
  cases ha : strElem st ALLOWED_ALERT_STAGES
  · have hagr : agr = true := by simpa [ha] using h
    simp [hagr]
  · have hs := allowed_not_suppressed ha
    simp [hs]

/-- C3: every turn on which a contact was freshly confirmed alerts,
whatever the latches and the stage, and the alert title is the
new-contact title; in particular two turns of one session that each
freshly confirm a contact both alert. -/
theorem new_contact_always_alerts :
    (∀ (s : Session) (i : TurnInput),
      (chatStep s i).contact_found_now = true →
      (chatStep s i).should_alert = true ∧
      (chatStep s i).alert_title = some "HOT LEAD - NEW CONTACT") ∧
    (∀ (s : Session) (i1 i2 : TurnInput),
      (chatStep s i1).contact_found_now = true →
      (chatStep (chatStep s i1).session i2).contact_found_now = true →
      (chatStep s i1).should_alert = true ∧
      (chatStep (chatStep s i1).session i2).should_alert = true) := by
  have main : ∀ (s : Session) (i : TurnInput),
      (chatStep s i).contact_found_now = true →
      (chatStep s i).should_alert = true ∧
      (chatStep s i).alert_title = some "HOT LEAD - NEW CONTACT" := by
    intro s i h
    rw [chatStep_conf] at h
    have hsa : (chatStep s i).should_alert = true := by
      rw [chatStep_sa, h]
      simp [applySuppression, alertPair]
    refine ⟨hsa, ?_⟩
    rw [chatStep_title, hsa, h]
    simp
  exact ⟨main, fun s i1 i2 h1 h2 => ⟨(main s i1 h1).1, (main _ i2 h2).1⟩⟩

/-- C3 witness: a concrete confirming turn alerts with the new-contact
title. -/
theorem new_contact_always_alerts_witness :
    (chatStep freshSession ⟨"call me at 1234567", none,
        .output (some ⟨some "SALES_READY", none, some "1234567", none⟩),
        some "thanks"⟩).should_alert = true ∧
    (chatStep freshSession ⟨"call me at 1234567", none,
        .output (some ⟨some "SALES_READY", none, some "1234567", none⟩),
        some "thanks"⟩).alert_title = some "HOT LEAD - NEW CONTACT" :=
  new_contact_always_alerts.1 freshSession
    ⟨"call me at 1234567", none,
      .output (some ⟨some "SALES_READY", none, some "1234567", none⟩),
      some "thanks"⟩ (by decide)

/-- C4: a turn classified into an early stage (GREETING, DISCOVERY,
CONSULTING) with no fresh confirmation and no agreement phrase never
alerts, whatever the session state. -/
theorem early_stage_suppression (s : Session) (i : TurnInput)
    (h1 : strElem (chatStep s i).stage SUPPRESS_STAGES = true)
    (h2 : (chatStep s i).contact_found_now = false)
    (h3 : isAgreement i.message = false) :
    (chatStep s i).should_alert = false := by
  rw [chatStep_stage_eq] at h1
  rw [chatStep_conf] at h2
  rw [chatStep_sa]
  simp [applySuppression, h1, h2, h3]

/-- C4 witness: a concrete DISCOVERY turn with no confirmation and no
agreement phrase does not alert. -/
theorem early_stage_suppression_witness :
    (chatStep sessionWithContact ⟨"I need a website", none,
      .output (some ⟨some "DISCOVERY", none, none, none⟩),
      some "tell me more"⟩).should_alert = false :=
  early_stage_suppression sessionWithContact
    ⟨"I need a website", none,
      .output (some ⟨some "DISCOVERY", none, none, none⟩),
      some "tell me more"⟩ (by decide) (by decide) (by decide)

/-- C5: on every turn on which the `high_priority_alert_sent` latch
transitions from false to true an alert is actually sent on that very
turn: the final suppression rule can never cancel an alert whose latch
was set in the same evaluation. -/
theorem latch_transition_implies_alert (s : Session) (i : TurnInput)
    (h0 : s.high_priority_alert_sent = false)
    (h1 : (chatStep s i).session.high_priority_alert_sent = true) :
    (chatStep s i).should_alert = true := by
  rw [chatStep_hp, h0] at h1
  rw [chatStep_sa, h0]
  obtain ⟨hconf, hor, hfst⟩ := alertPair_false_latch_fired _ _ _ _ h1
  rw [hconf] at hfst ⊢
  rw [suppression_keeps _ _ _ hor]
  exact hfst

/-- C5 witness: a concrete sales-ready turn on a session with a stored
contact sets the latch and alerts. -/
theorem latch_transition_implies_alert_witness :
    (chatStep sessionWithContact
      ⟨"lets start the project", none, salesReadyAI, none⟩).should_alert
      = true :=
  latch_transition_implies_alert sessionWithContact
    ⟨"lets start the project", none, salesReadyAI, none⟩ rfl (by decide)

/-! ### Latch counting lemmas -/

lemma chatStep_hp_or (s : Session) (i : TurnInput) :
    (chatStep s i).session.high_priority_alert_sent =
      (s.high_priority_alert_sent || (chatStep s i).rule2Fired) := by
  rw [chatStep_hp, chatStep_rule2]
  exact alertPair_snd _ _ _ _ _

lemma chatStep_rule2_unlatched (s : Session) (i : TurnInput)
    (h : (chatStep s i).rule2Fired = true) :
    s.high_priority_alert_sent = false := by
  rw [chatStep_rule2] at h
  cases hhp : s.high_priority_alert_sent
  · rfl
  · exfalso
    rw [hhp] at h
    have hconf : (turnAnalysis s i).2.2 = false := by
      cases hc : (turnAnalysis s i).2.2
      · rfl
      · rw [hc] at h; simp at h
    rw [hconf] at h
    simp at h
    exact alertPair_fst_needs_unlatched h

lemma countRule2_cons (s : Session) (i : TurnInput) (l : List TurnInput) :
    countRule2 s (i :: l) =
      countRule2 (chatStep s i).session l +
        (if (chatStep s i).rule2Fired then 1 else 0) := by
  simp [countRule2, runLog, List.countP_cons]

lemma countRule2_zero_of_latched (l : List TurnInput) :
    ∀ s : Session, s.high_priority_alert_sent = true → countRule2 s l = 0 := by
  induction l with
  | nil => intro s _; rfl
  | cons i rest ih =>
    intro s h
    have hr : (chatStep s i).rule2Fired = false := by
      cases hr2 : (chatStep s i).rule2Fired
      · rfl
      · rw [chatStep_rule2_unlatched s i hr2] at h; simp at h
    have hs2 : (chatStep s i).session.high_priority_alert_sent = true := by
      rw [chatStep_hp_or, h]; rfl
    rw [countRule2_cons, hr, ih _ hs2]
    simp

lemma countRule2_le_one (l : List TurnInput) :
    ∀ s : Session, countRule2 s l ≤ 1 := by
  induction l with
  | nil => intro s; exact Nat.zero_le 1
  | cons i rest ih =>
    intro s
    rw [countRule2_cons]
    cases hr : (chatStep s i).rule2Fired
    · simpa using ih (chatStep s i).session
    · have hs2 : (chatStep s i).session.high_priority_alert_sent = true := by
        rw [chatStep_hp_or, hr]; simp
      rw [countRule2_zero_of_latched rest _ hs2]
      simp

lemma turnAnalysis_salesReady (s : Session) (m : String) (r : Option String) :
    turnAnalysis s ⟨m, none, salesReadyAI, r⟩ =
      (s.profile, "SALES_READY", false) := rfl

/-- C2: over any run of any session, the rule-2 (high-priority,
latched) alert fires at most once; and two consecutive SALES_READY
turns on a not-yet-latched session with a stored validator-passing
contact and no fresh confirmation produce exactly one alert across the
two turns (the first alerts, the second does not). -/
theorem high_priority_alert_single_shot :
    (∀ (s : Session) (l : List TurnInput), countRule2 s l ≤ 1) ∧
    (∀ (s : Session) (m1 m2 : String) (r1 r2 : Option String),
      s.high_priority_alert_sent = false →
      is_real_contact s.profile.contact = true →
      (chatStep s ⟨m1, none, salesReadyAI, r1⟩).should_alert = true ∧
      (chatStep (chatStep s ⟨m1, none, salesReadyAI, r1⟩).session
        ⟨m2, none, salesReadyAI, r2⟩).should_alert = false) := by
  refine ⟨fun s l => countRule2_le_one l s, ?_⟩
  intro s m1 m2 r1 r2 h0 h1
  have hsa1 : (chatStep s ⟨m1, none, salesReadyAI, r1⟩).should_alert = true := by
    rw [chatStep_sa, turnAnalysis_salesReady]
    show applySuppression "SALES_READY" false (isAgreement m1)
      (alertPair s.high_priority_alert_sent "SALES_READY" false
        (isAgreement m1) (is_real_contact s.profile.contact)).1 = true
    rw [h0, h1, suppression_keeps _ _ _ (by simp [strElem, ALLOWED_ALERT_STAGES])]
    simp [alertPair, strElem, ALLOWED_ALERT_STAGES]
  have hprof : (chatStep s ⟨m1, none, salesReadyAI, r1⟩).session.profile =
      s.profile := by
    rw [chatStep_profile, turnAnalysis_salesReady]
  have hhp : (chatStep s ⟨m1, none, salesReadyAI, r1⟩).session.high_priority_alert_sent
      = true := by
    rw [chatStep_hp, turnAnalysis_salesReady]
    show (alertPair s.high_priority_alert_sent "SALES_READY" false
      (isAgreement m1) (is_real_contact s.profile.contact)).2 = true
    rw [h0, h1]
    simp [alertPair, strElem, ALLOWED_ALERT_STAGES]
  refine ⟨hsa1, ?_⟩
  rw [chatStep_sa, turnAnalysis_salesReady]
  show applySuppression "SALES_READY" false (isAgreement m2)
    (alertPair (chatStep s ⟨m1, none, salesReadyAI, r1⟩).session.high_priority_alert_sent
      "SALES_READY" false (isAgreement m2)
      (is_real_contact (chatStep s ⟨m1, none, salesReadyAI, r1⟩).session.profile.contact)).1
    = false
  rw [hhp, hprof, h1, suppression_keeps _ _ _ (by simp [strElem, ALLOWED_ALERT_STAGES])]
  simp [alertPair]

/-- C2 witness: two concrete consecutive SALES_READY turns on a session
with a stored contact alert exactly once. -/
theorem high_priority_alert_single_shot_witness :
    (chatStep sessionWithContact
      ⟨"we want to start", none, salesReadyAI, none⟩).should_alert = true ∧
    (chatStep (chatStep sessionWithContact
        ⟨"we want to start", none, salesReadyAI, none⟩).session
      ⟨"when do we begin", none, salesReadyAI, none⟩).should_alert = false :=
  high_priority_alert_single_shot.2 sessionWithContact
    "we want to start" "when do we begin" none none rfl (by decide)

/-- C8: the profile contact is never cleared once set (truthiness is
preserved by every turn), and it changes only via (a) a freshly
confirmed extracted contact overwriting the previous value, or (b)
cookie seeding into a still-empty profile with a validator-passing
stored value. -/
theorem contact_write_discipline (s : Session) (i : TurnInput) :
    (pyTruthy s.profile.contact = true →
      pyTruthy (chatStep s i).session.profile.contact = true) ∧
    ((chatStep s i).session.profile.contact = s.profile.contact ∨
     ((chatStep s i).contact_found_now = true ∧
       (chatStep s i).session.profile.contact = extractedContact i.ai) ∨
     (pyTruthy s.profile.contact = false ∧
       (chatStep s i).session.profile.contact = i.stored_contact ∧
       is_real_contact i.stored_contact = true)) := by
  have hta : (chatStep s i).session.profile =
      (analyze_situation (seedContact s.profile i.stored_contact)
        i.message i.ai).1 := rfl
  have htc : (chatStep s i).contact_found_now =
      (analyze_situation (seedContact s.profile i.stored_contact)
        i.message i.ai).2.2 := rfl
  constructor
  · intro ht
    rw [hta]
    rcases analyze_contact_cases (seedContact s.profile i.stored_contact)
        i.message i.ai with ⟨_, hcc, hv⟩ | ⟨_, hcc⟩
    · rw [hcc]; exact validator_truthy hv
    · rw [hcc, seed_of_truthy s.profile i.stored_contact ht]; exact ht
  · rcases analyze_contact_cases (seedContact s.profile i.stored_contact)
        i.message i.ai with ⟨hcf, hcc, _⟩ | ⟨_, hcc⟩
    · right; left
      exact ⟨by rw [htc, hcf], by rw [hta, hcc]⟩
    · rcases seed_cases s.profile i.stored_contact with hse | ⟨hfal, hse, hvst⟩
      · left; rw [hta, hcc, hse]
      · right; right
        refine ⟨hfal, ?_, hvst⟩
        rw [hta, hcc, hse]

/-- C8 witness: the write discipline applied at a session whose profile
already holds a contact. -/
theorem contact_write_discipline_witness :
    pyTruthy (chatStep sessionWithContact
      ⟨"hi", none, .noClient, none⟩).session.profile.contact = true :=
  (contact_write_discipline sessionWithContact
    ⟨"hi", none, .noClient, none⟩).1 (by decide)

/-! ### History truncation lemmas -/

lemma lastN_length_le (n : Nat) (l : List α) : (lastN n l).length ≤ n := by
  unfold lastN
  rw [List.length_reverse, List.length_take]
  exact Nat.min_le_left _ _

lemma lastN_append_absorb (n : Nat) (xs ys : List α) :
    lastN n (lastN n xs ++ ys) = lastN n (xs ++ ys) := by
  unfold lastN
  rw [List.reverse_append, List.reverse_reverse, List.reverse_append,
    List.take_append_eq_append_take, List.take_append_eq_append_take,
    List.take_take, Nat.min_eq_left (Nat.sub_le _ _)]

lemma runChat_history (l : List TurnInput) :
    ∀ (s : Session) (L : List Msg), s.history = lastN HISTORY_LIMIT L →
      (runChat s l).history = lastN HISTORY_LIMIT (L ++ allTurnMsgs l) := by
  induction l with
  | nil =>
    intro s L h
    simpa [runChat, allTurnMsgs] using h
  | cons i rest ih =>
    intro s L h
    show (runChat (chatStep s i).session rest).history = _
    have hstep : (chatStep s i).session.history =
        lastN HISTORY_LIMIT (L ++ turnMsgs i) := by
      rw [chatStep_history_eq, h, lastN_append_absorb]
    rw [ih (chatStep s i).session (L ++ turnMsgs i) hstep, List.append_assoc]
    rfl

/-- C10: after any sequence of chat turns from a fresh session, the
stored history has length at most `HISTORY_LIMIT` (= 30) and equals the
most recent 30 of all appended messages, in arrival order. -/
theorem history_bounded_and_recent (l : List TurnInput) :
    (runChat freshSession l).history.length ≤ HISTORY_LIMIT ∧
    HISTORY_LIMIT = 30 ∧
    (runChat freshSession l).history = lastN HISTORY_LIMIT (allTurnMsgs l) := by
  have h := runChat_history l freshSession [] rfl
  rw [List.nil_append] at h
  exact ⟨by rw [h]; exact lastN_length_le _ _, rfl, h⟩
